import Mathlib

/-!
Verification development for the Bear preload interception library
(`src/source/libexec/lib.cc`).

The file embeds, as executable Lean definitions:

* the variadic-argument marshalling helpers `va_length` and `va_copy_n`
  (lib.cc lines 62-72), together with the constructed stack argument
  vectors of `execl` / `execlp` / `execle` (lines 184-244);
* the load / unload hooks with their atomic guard (lines 102-129) as a
  transition system on an explicit library state;
* every overridden entry point, each of which writes one event record and
  then delegates through an `Executor`.

The collaborator classes (`Session`, `Executor`, `Environment`) live in
headers that are not part of the sources at hand; they are modelled from
the specification and marked as such in their doc comments.
-/

set_option linter.unusedVariables false

namespace Bear

/-- A raw machine value sitting in a C variadic argument list: a string
pointer, the null sentinel, or (for `execle`) a pointer to an environment
array. `va_arg` reads these one by one. -/
inductive VaVal where
  | null : VaVal
  | str : String → VaVal
  | env : List String → VaVal
deriving DecidableEq

/-- Embeds `va_length` (lib.cc lines 62-67): advance the traversal, counting
values, until the null sentinel is read. Reading past the end of the list is
undefined behaviour in C; the model returns the count so far. -/
def va_length : List VaVal → Nat
  | [] => 0
  | VaVal.null :: _ => 0
  | _ :: rest => va_length rest + 1

/-- Embeds `va_copy_n` (lib.cc lines 69-72): starting from a freshly
re-started traversal, read `argc + 1` values (the loop runs `idx = 0`
through `idx = argc` inclusive, so it copies the arguments and the null
sentinel). The first component is what was copied, the second is the
traversal state left behind, from which `execle` reads one further value. -/
def va_copy_n (ap : List VaVal) (argc : Nat) : List VaVal × List VaVal :=
  (ap.take (argc + 1), ap.drop (argc + 1))

/-- Reads a C `char *argv[]` array as the null-terminated argument vector the
delegate observes: the strings up to the first non-string entry. -/
def cvec_to_argv : List VaVal → List String
  | VaVal.str s :: rest => s :: cvec_to_argv rest
  | _ => []

/-- Reinterprets a raw variadic value as a `char **` environment pointer, as
`va_arg(ap, char **)` does in `execle` (lib.cc line 240). Reading anything
but an environment pointer there is undefined behaviour in C; the model
returns the empty environment. -/
def as_envp : Option VaVal → List String
  | some (VaVal.env e) => e
  | _ => []

/-- The stack argument vector built by `execl`, `execlp` and `execle`
(lib.cc lines 194-196, 215-217, 237-239): a `char *argv[argc + 2]` with the
path (respectively file) at index 0 and the `argc + 1` values of the second
traversal — the trailing arguments and the null sentinel — copied behind it.
The first named argument `arg` only anchors `va_start` and is never stored. -/
def variadic_argv (arg0 : String) (ap : List VaVal) : List VaVal :=
  VaVal.str arg0 :: (va_copy_n ap (va_length ap)).1

/-- The environment pointer `execle` reads positionally right after
`va_copy_n` has consumed the arguments and the sentinel (lib.cc line 240). -/
def execle_envp (ap : List VaVal) : List String :=
  as_envp (va_copy_n ap (va_length ap)).2.head?

/-- Modelled from the spec: the per-process `Session` record — reporting
destination, verbosity flag, supervisor executable path and the library's
own path, plus the disabled (pass-through) flag (`Session.h` is not among
the sources at hand). -/
structure Session where
  enabled : Bool
  destination : String
  verbose : Bool
  supervisor : String
  library : String
deriving DecidableEq

/-- The default-constructed `SESSION` static (lib.cc line 88): disabled. -/
def default_session : Session :=
  { enabled := false, destination := "", verbose := false,
    supervisor := "", library := "" }

/-- Modelled from the spec: reserved environment key for the reporting
destination. -/
def key_destination : String := "REPORT_DESTINATION"

/-- Modelled from the spec: reserved environment key for the supervisor
executable path. -/
def key_supervisor : String := "SUPERVISOR_PATH"

/-- Modelled from the spec: reserved environment key for this library's own
path. -/
def key_library : String := "LIBRARY_PATH"

/-- Modelled from the spec: reserved environment key for the verbosity
flag. -/
def key_verbose : String := "VERBOSE"

/-- Whether the first character list begins with the second one. -/
def begins_with : List Char → List Char → Bool
  | _, [] => true
  | [], _ :: _ => false
  | c :: cs, k :: ks => c = k && begins_with cs ks

/-- Modelled from the spec: `lookup(key)` of the Environment Snapshot — a
linear scan of the `KEY=VALUE` entries returning the value or absence
(`Environment.h` is not among the sources at hand). -/
def env_lookup : List String → String → Option String
  | [], _ => none
  | entry :: rest, key =>
      if begins_with entry.data (key.data ++ ['=']) then
        some ⟨entry.data.drop (key.data.length + 1)⟩
      else env_lookup rest key

/-- Modelled from the spec: `Session::from(environment)` parses the reserved
configuration keys; any missing mandatory key (destination, supervisor path,
library path) yields a disabled Session — fail-open, never an error
(`Session.h` is not among the sources at hand). -/
def Session.from_env (environment : List String) : Session :=
  match env_lookup environment key_destination,
        env_lookup environment key_supervisor,
        env_lookup environment key_library with
  | some d, some s, some l =>
      { enabled := true, destination := d,
        verbose := (env_lookup environment key_verbose).isSome,
        supervisor := s, library := l }
  | _, _, _ => default_session

/-- Modelled from the spec: `Session::persist` re-serializes the resolved
configuration into `KEY=VALUE` form for merging into forwarded
environments. -/
def Session.to_env (s : Session) : List String :=
  [key_destination ++ "=" ++ s.destination,
   key_supervisor ++ "=" ++ s.supervisor,
   key_library ++ "=" ++ s.library]
  ++ (if s.verbose then [key_verbose ++ "=1"] else [])

/-- The key of a `KEY=VALUE` environment entry. -/
def env_key (entry : String) : String := (entry.splitOn "=").headD entry

/-- Modelled from the spec: environment merge — last-writer-wins per key,
original relative order preserved for unmodified keys, new keys appended in
caller-specified order. -/
def env_merge (base overrides : List String) : List String :=
  base.map (fun e =>
    match (overrides.filter (fun o => env_key o = env_key e)).getLast? with
    | some o => o
    | none => e)
  ++ overrides.filter (fun o => base.all (fun e => env_key e ≠ env_key o))

/-- One call handed to a resolved original implementation: the operation
that was resolved, the target, and the argument and environment vectors it
receives. -/
structure DelegateCall where
  op : String
  path : String
  argv : List String
  envp : List String
deriving DecidableEq

/-- Modelled from the spec: the fixed marker distinguishing supervisor-mode
invocation in the rewritten argument vector. -/
def supervisor_marker : String := "supervise"

/-- Modelled from the spec: `Executor::execve` — report is done by the
caller; if the Session is disabled or the requested target already is the
supervisor, delegate unchanged; otherwise delegate to the resolved
`execve`, targeting the supervisor with the rewritten vectors: supervisor
path, marker, reporting context, original target, then the caller's argv;
environment merged with the persisted configuration (`Executor.h` is not
among the sources at hand). -/
def Executor.execve_call (s : Session) (path : String)
    (argv envp : List String) : DelegateCall :=
  if s.enabled = false ∨ path = s.supervisor then
    { op := "execve", path := path, argv := argv, envp := envp }
  else
    { op := "execve", path := s.supervisor,
      argv := s.supervisor :: supervisor_marker :: s.destination :: path :: argv,
      envp := env_merge envp s.to_env }

/-- Modelled from the spec: `Executor::execvpe`, the PATH-searching shape;
same algorithm with the bare file name as the recorded original target. -/
def Executor.execvpe_call (s : Session) (file : String)
    (argv envp : List String) : DelegateCall :=
  if s.enabled = false ∨ file = s.supervisor then
    { op := "execvpe", path := file, argv := argv, envp := envp }
  else
    { op := "execvpe", path := s.supervisor,
      argv := s.supervisor :: supervisor_marker :: s.destination :: file :: argv,
      envp := env_merge envp s.to_env }

/-- Modelled from the spec: `Executor::execvP`, the search-list shape; the
original target is the bare name together with the explicit search list,
which applies to this one call only. -/
def Executor.execvP_call (s : Session) (file search_path : String)
    (argv envp : List String) : DelegateCall :=
  if s.enabled = false ∨ file = s.supervisor then
    { op := "execvP", path := file, argv := argv, envp := envp }
  else
    { op := "execvP", path := s.supervisor,
      argv := s.supervisor :: supervisor_marker :: s.destination :: file
              :: search_path :: argv,
      envp := env_merge envp s.to_env }

/-- Modelled from the spec: `Executor::posix_spawn`, the explicit-path spawn
shape; same rewrite, delegating to the resolved `posix_spawn`. -/
def Executor.posix_spawn_call (s : Session) (path : String)
    (argv envp : List String) : DelegateCall :=
  if s.enabled = false ∨ path = s.supervisor then
    { op := "posix_spawn", path := path, argv := argv, envp := envp }
  else
    { op := "posix_spawn", path := s.supervisor,
      argv := s.supervisor :: supervisor_marker :: s.destination :: path :: argv,
      envp := env_merge envp s.to_env }

/-- Modelled from the spec: `Executor::posix_spawnp`, the PATH-searching
spawn shape. -/
def Executor.posix_spawnp_call (s : Session) (file : String)
    (argv envp : List String) : DelegateCall :=
  if s.enabled = false ∨ file = s.supervisor then
    { op := "posix_spawnp", path := file, argv := argv, envp := envp }
  else
    { op := "posix_spawnp", path := s.supervisor,
      argv := s.supervisor :: supervisor_marker :: s.destination :: file :: argv,
      envp := env_merge envp s.to_env }

/-- An observable action of an entry point, in order: a `write_message`
record, or a call handed to the resolved original implementation. -/
inductive Event where
  | record : String → Event
  | delegate : DelegateCall → Event
deriving DecidableEq

/-- Embeds `execve` (lib.cc lines 132-137): write the record, delegate
through the Executor, return what the resolved implementation returns.
`impl` stands for the behaviour of the resolved original implementation. -/
def execve (s : Session) (path : String) (argv envp : List String)
    (impl : DelegateCall → Int) : List Event × Int :=
  let c := Executor.execve_call s path argv envp
  ([Event.record "execve", Event.delegate c], impl c)

/-- Embeds `execv` (lib.cc lines 140-146): the environment handed on is
`ear::environment::current()` — the live process environment `ambient` read
at call time. -/
def execv (s : Session) (ambient : List String) (path : String)
    (argv : List String) (impl : DelegateCall → Int) : List Event × Int :=
  let envp := ambient
  let c := Executor.execve_call s path argv envp
  ([Event.record "execv", Event.delegate c], impl c)

/-- Embeds `execvpe` (lib.cc lines 149-154). -/
def execvpe (s : Session) (file : String) (argv envp : List String)
    (impl : DelegateCall → Int) : List Event × Int :=
  let c := Executor.execvpe_call s file argv envp
  ([Event.record "execvpe", Event.delegate c], impl c)

/-- Embeds `execvp` (lib.cc lines 157-163): PATH-searching, with the live
process environment. -/
def execvp (s : Session) (ambient : List String) (file : String)
    (argv : List String) (impl : DelegateCall → Int) : List Event × Int :=
  let envp := ambient
  let c := Executor.execvpe_call s file argv envp
  ([Event.record "execvp", Event.delegate c], impl c)

/-- Embeds `execvP` (lib.cc lines 166-172): search-list shape, with the live
process environment. -/
def execvP (s : Session) (ambient : List String) (file search_path : String)
    (argv : List String) (impl : DelegateCall → Int) : List Event × Int :=
  let envp := ambient
  let c := Executor.execvP_call s file search_path argv envp
  ([Event.record "execvP", Event.delegate c], impl c)

/-- Embeds `exect` (lib.cc lines 175-180): takes a caller-supplied
environment and forwards it through the `execve` shape. -/
def exect (s : Session) (path : String) (argv envp : List String)
    (impl : DelegateCall → Int) : List Event × Int :=
  let c := Executor.execve_call s path argv envp
  ([Event.record "exect", Event.delegate c], impl c)

/-- Embeds `execl` (lib.cc lines 184-201): count the trailing arguments with
one traversal, re-start and copy them into the stack vector behind `path`,
then delegate through the `execve` shape with the live process environment.
`arg`, the first named argument, only anchors `va_start` and is unused. -/
def execl (s : Session) (ambient : List String) (path arg : String)
    (ap : List VaVal) (impl : DelegateCall → Int) : List Event × Int :=
  let argv := cvec_to_argv (variadic_argv path ap)
  let envp := ambient
  let c := Executor.execve_call s path argv envp
  ([Event.record "execl", Event.delegate c], impl c)

/-- Embeds `execlp` (lib.cc lines 204-222): as `execl`, but the vector is
headed by the bare file name and delegation goes through the PATH-searching
`execvpe` shape. -/
def execlp (s : Session) (ambient : List String) (file arg : String)
    (ap : List VaVal) (impl : DelegateCall → Int) : List Event × Int :=
  let argv := cvec_to_argv (variadic_argv file ap)
  let envp := ambient
  let c := Executor.execvpe_call s file argv envp
  ([Event.record "execlp", Event.delegate c], impl c)

/-- Embeds `execle` (lib.cc lines 226-244): as `execl`, but the environment
is read positionally from the traversal right after the copied sentinel, and
the live process environment is never consulted. -/
def execle (s : Session) (path arg : String) (ap : List VaVal)
    (impl : DelegateCall → Int) : List Event × Int :=
  let argv := cvec_to_argv (variadic_argv path ap)
  let envp := execle_envp ap
  let c := Executor.execve_call s path argv envp
  ([Event.record "execle", Event.delegate c], impl c)

/-- Embeds `posix_spawn` (lib.cc lines 247-255): the resolved original
returns both an error code and, through the output parameter, the child
identifier; the wrapper forwards both. The opaque file-action and attribute
handles are passed through unexamined and are outside the model. -/
def posix_spawn (s : Session) (path : String) (argv envp : List String)
    (impl : DelegateCall → Int × Nat) : List Event × (Int × Nat) :=
  let c := Executor.posix_spawn_call s path argv envp
  ([Event.record "posix_spawn", Event.delegate c], impl c)

/-- Embeds `posix_spawnp` (lib.cc lines 258-266). -/
def posix_spawnp (s : Session) (file : String) (argv envp : List String)
    (impl : DelegateCall → Int × Nat) : List Event × (Int × Nat) :=
  let c := Executor.posix_spawnp_call s file argv envp
  ([Event.record "posix_spawnp", Event.delegate c], impl c)

/-- The library's static state (lib.cc lines 85-94): the atomic `LOADED`
guard, the `SESSION` record, plus two observation channels — the record
names written so far and a count of how many times `Session::from` has
constructed the session. -/
structure LibState where
  loaded : Bool
  session : Session
  events : List String
  session_constructions : Nat
deriving DecidableEq

/-- The statics as first initialized when the library is mapped:
`LOADED(false)` and a default-constructed, disabled `SESSION`. -/
def initial_state : LibState :=
  { loaded := false, session := default_session, events := [],
    session_constructions := 0 }

/-- Embeds `on_load` (lib.cc lines 102-115): `LOADED.exchange(true)` returns
the old value; if the library was already loaded, nothing happens; otherwise
the session is constructed from the current environment, persisted, and the
load record is written. -/
def on_load (environment : List String) (st : LibState) : LibState :=
  if st.loaded then st
  else
    { loaded := true,
      session := Session.from_env environment,
      events := st.events ++ ["on_load"],
      session_constructions := st.session_constructions + 1 }

/-- Embeds `on_unload` (lib.cc lines 122-129): `LOADED.exchange(false)`
returns the old value; only a loaded library writes the unload record. -/
def on_unload (st : LibState) : LibState :=
  if st.loaded then
    { st with loaded := false, events := st.events ++ ["on_unload"] }
  else st

/-- A hook invocation, for replaying dynamic-loading sequences. -/
inductive Hook where
  | load : Hook
  | unload : Hook
deriving DecidableEq

/-- Replays a sequence of hook invocations against the library state. -/
def run_hooks (environment : List String) : List Hook → LibState → LibState
  | [], st => st
  | Hook.load :: rest, st => run_hooks environment rest (on_load environment st)
  | Hook.unload :: rest, st => run_hooks environment rest (on_unload st)

/-! ### Helper lemmas on the variadic marshalling -/

theorem take_append_len_succ (l1 : List VaVal) (x : VaVal) (r : List VaVal) :
    (l1 ++ x :: r).take (l1.length + 1) = l1 ++ [x] := by
  induction l1 with
  | nil => rfl
  | cons a as ih => simp [List.take_succ_cons, ih]

theorem drop_append_len_succ (l1 : List VaVal) (x : VaVal) (r : List VaVal) :
    (l1 ++ x :: r).drop (l1.length + 1) = r := by
  induction l1 with
  | nil => rfl
  | cons a as ih => simp [ih]

/-- On a well-formed variadic list — the trailing arguments, then the
sentinel, then whatever follows — the counting traversal returns exactly the
number of trailing arguments. -/
theorem va_length_eq (args : List String) (rest : List VaVal) :
    va_length (args.map VaVal.str ++ VaVal.null :: rest) = args.length := by
  induction args with
  | nil => rfl
  | cons a as ih => simpa [va_length] using ih

/-- The copying traversal, re-started on the same list, copies exactly the
counted arguments and the terminating sentinel. -/
theorem va_copy_n_eq (args : List String) (rest : List VaVal) :
    va_copy_n (args.map VaVal.str ++ VaVal.null :: rest) args.length
      = (args.map VaVal.str ++ [VaVal.null], rest) := by
  have ht := take_append_len_succ (args.map VaVal.str) VaVal.null rest
  have hd := drop_append_len_succ (args.map VaVal.str) VaVal.null rest
  simp only [List.length_map] at ht hd
  simp [va_copy_n, ht, hd]

/-- The stack vector built by the variadic wrappers: the head name, the
trailing arguments, the sentinel. -/
theorem variadic_argv_eq (arg0 : String) (args : List String)
    (rest : List VaVal) :
    variadic_argv arg0 (args.map VaVal.str ++ VaVal.null :: rest)
      = VaVal.str arg0 :: (args.map VaVal.str ++ [VaVal.null]) := by
  rw [variadic_argv, va_length_eq, va_copy_n_eq]

theorem cvec_to_argv_eq (arg0 : String) (args : List String) :
    cvec_to_argv (VaVal.str arg0 :: (args.map VaVal.str ++ [VaVal.null]))
      = arg0 :: args := by
  induction args generalizing arg0 with
  | nil => rfl
  | cons a as ih => simpa [cvec_to_argv] using ih a

/-- The argument vector the Executor observes from a variadic wrapper. -/
theorem variadic_observed_eq (arg0 : String) (args : List String)
    (rest : List VaVal) :
    cvec_to_argv (variadic_argv arg0 (args.map VaVal.str ++ VaVal.null :: rest))
      = arg0 :: args := by
  rw [variadic_argv_eq, cvec_to_argv_eq]

/-! ### Claims -/

/-- C3: for every variadic call (`execl`, `execlp`, `execle`) the argument
list is traversed twice — `va_length` counts the arguments up to the
sentinel, and `va_copy_n`, re-started on the list, copies them — and the
constructed vector holds exactly the counted number of trailing arguments:
it is the head name, the `va_length`-counted arguments in order, and the
terminating sentinel, so the vector the delegate observes has length equal
to the count plus one for the head name. Holds for 0, 1 or any `N`
trailing arguments. -/
theorem c3_variadic_two_pass_count (arg0 : String) (args : List String)
    (rest : List VaVal) :
    va_length (args.map VaVal.str ++ VaVal.null :: rest) = args.length ∧
    (va_copy_n (args.map VaVal.str ++ VaVal.null :: rest)
        (va_length (args.map VaVal.str ++ VaVal.null :: rest))).1
      = args.map VaVal.str ++ [VaVal.null] ∧
    cvec_to_argv (variadic_argv arg0 (args.map VaVal.str ++ VaVal.null :: rest))
      = arg0 :: args ∧
    (cvec_to_argv (variadic_argv arg0 (args.map VaVal.str ++ VaVal.null :: rest))).length
      = va_length (args.map VaVal.str ++ VaVal.null :: rest) + 1 := by
  refine ⟨va_length_eq args rest, ?_, variadic_observed_eq arg0 args rest, ?_⟩
  · rw [va_length_eq, va_copy_n_eq]
  · rw [variadic_observed_eq, va_length_eq]
    simp

/-- C4: an `execle` call ending in the sentinel followed by an environment
pointer delegates exactly that environment — read positionally after the
sentinel, not taken from the ambient process environment — and the
environment pointer is not counted among the trailing arguments. -/
theorem c4_execle_positional_envp (path arg : String) (args e : List String)
    (rest : List VaVal) (impl : DelegateCall → Int) :
    execle_envp (args.map VaVal.str ++ VaVal.null :: VaVal.env e :: rest) = e ∧
    va_length (args.map VaVal.str ++ VaVal.null :: VaVal.env e :: rest)
      = args.length ∧
    execle default_session path arg
        (args.map VaVal.str ++ VaVal.null :: VaVal.env e :: rest) impl
      = ([Event.record "execle",
          Event.delegate { op := "execve", path := path,
                           argv := path :: args, envp := e }],
         impl { op := "execve", path := path, argv := path :: args,
                envp := e }) := by
  have henv : execle_envp (args.map VaVal.str ++ VaVal.null :: VaVal.env e :: rest) = e := by
    rw [execle_envp, va_length_eq, va_copy_n_eq]
    rfl
  refine ⟨henv, va_length_eq args _, ?_⟩
  rw [execle, variadic_observed_eq, henv]
  rfl

/-- C9: the vector constructed by `execl`, `execlp` and `execle` has the
path (respectively file) parameter at index 0, followed by the variadic
arguments that come after the first named argument `arg`, and is
null-terminated right after the last copied argument; `arg` itself never
appears (unless it coincides with the head name or one of the later
arguments), and the wrappers' results do not depend on `arg` at all. -/
theorem c9_variadic_vector_shape (s : Session) (ambient : List String)
    (arg0 arg a1 a2 : String) (args : List String) (rest : List VaVal)
    (impl : DelegateCall → Int)
    (h : arg ∉ arg0 :: args) :
    variadic_argv arg0 (args.map VaVal.str ++ VaVal.null :: rest)
      = VaVal.str arg0 :: (args.map VaVal.str ++ [VaVal.null]) ∧
    VaVal.str arg ∉ variadic_argv arg0 (args.map VaVal.str ++ VaVal.null :: rest) ∧
    execl s ambient arg0 a1 (args.map VaVal.str ++ VaVal.null :: rest) impl
      = execl s ambient arg0 a2 (args.map VaVal.str ++ VaVal.null :: rest) impl ∧
    execlp s ambient arg0 a1 (args.map VaVal.str ++ VaVal.null :: rest) impl
      = execlp s ambient arg0 a2 (args.map VaVal.str ++ VaVal.null :: rest) impl ∧
    execle s arg0 a1 (args.map VaVal.str ++ VaVal.null :: rest) impl
      = execle s arg0 a2 (args.map VaVal.str ++ VaVal.null :: rest) impl := by
  simp only [List.mem_cons, not_or] at h
  refine ⟨variadic_argv_eq arg0 args rest, ?_, rfl, rfl, rfl⟩
  rw [variadic_argv_eq]
  simp only [List.mem_cons, List.mem_append, List.mem_map, VaVal.str.injEq]
  push_neg
  exact ⟨fun hc => h.1 hc, fun x hx hc => h.2 (hc ▸ hx), by simp⟩

/-- C9 witness: a concrete `execl`-style call with two trailing arguments,
whose intended argv[0] is distinct from the head name and the arguments. -/
theorem c9_variadic_vector_shape_witness :
    ("zero" ∉ ["/bin/ls", "-l", "-a"]) ∧
    (variadic_argv "/bin/ls"
        (["-l", "-a"].map VaVal.str ++ VaVal.null :: [])
      = VaVal.str "/bin/ls" :: (["-l", "-a"].map VaVal.str ++ [VaVal.null]) ∧
    VaVal.str "zero" ∉ variadic_argv "/bin/ls"
        (["-l", "-a"].map VaVal.str ++ VaVal.null :: []) ∧
    execl default_session [] "/bin/ls" "zero"
        (["-l", "-a"].map VaVal.str ++ VaVal.null :: []) (fun _ => 0)
      = execl default_session [] "/bin/ls" "one"
        (["-l", "-a"].map VaVal.str ++ VaVal.null :: []) (fun _ => 0) ∧
    execlp default_session [] "/bin/ls" "zero"
        (["-l", "-a"].map VaVal.str ++ VaVal.null :: []) (fun _ => 0)
      = execlp default_session [] "/bin/ls" "one"
        (["-l", "-a"].map VaVal.str ++ VaVal.null :: []) (fun _ => 0) ∧
    execle default_session "/bin/ls" "zero"
        (["-l", "-a"].map VaVal.str ++ VaVal.null :: []) (fun _ => 0)
      = execle default_session "/bin/ls" "one"
        (["-l", "-a"].map VaVal.str ++ VaVal.null :: []) (fun _ => 0)) :=
  ⟨by decide,
   c9_variadic_vector_shape default_session [] "/bin/ls" "zero" "zero" "one"
     ["-l", "-a"] [] (fun _ => 0) (by decide)⟩

/-- A concrete enabled session used by witnesses. -/
def sample_session : Session :=
  { enabled := true, destination := "/tmp/events", verbose := false,
    supervisor := "/bin/true", library := "/lib/libexec.so" }

/-- C1: with the Session enabled and the requested target not the
supervisor, every operation shape delegates to the supervisor path, and the
delegated argument vector is the fixed head — supervisor path, marker,
reporting context, original target (for the search-list shape together with
its search list) — followed by the caller's original argv exactly, in
order, including the caller's argv[0]. -/
theorem c1_rewrite_invariant (s : Session) (path file search : String)
    (argv envp : List String) (hs : s.enabled = true)
    (hp : path ≠ s.supervisor) (hf : file ≠ s.supervisor) :
    (Executor.execve_call s path argv envp).path = s.supervisor ∧
    (Executor.execve_call s path argv envp).argv
      = [s.supervisor, supervisor_marker, s.destination, path] ++ argv ∧
    (Executor.execvpe_call s file argv envp).path = s.supervisor ∧
    (Executor.execvpe_call s file argv envp).argv
      = [s.supervisor, supervisor_marker, s.destination, file] ++ argv ∧
    (Executor.execvP_call s file search argv envp).path = s.supervisor ∧
    (Executor.execvP_call s file search argv envp).argv
      = [s.supervisor, supervisor_marker, s.destination, file, search] ++ argv ∧
    (Executor.posix_spawn_call s path argv envp).path = s.supervisor ∧
    (Executor.posix_spawn_call s path argv envp).argv
      = [s.supervisor, supervisor_marker, s.destination, path] ++ argv ∧
    (Executor.posix_spawnp_call s file argv envp).path = s.supervisor ∧
    (Executor.posix_spawnp_call s file argv envp).argv
      = [s.supervisor, supervisor_marker, s.destination, file] ++ argv := by
  have hcp : ¬(s.enabled = false ∨ path = s.supervisor) := by simp [hs, hp]
  have hcf : ¬(s.enabled = false ∨ file = s.supervisor) := by simp [hs, hf]
  refine ⟨?_, ?_, ?_, ?_, ?_, ?_, ?_, ?_, ?_, ?_⟩ <;>
    simp [Executor.execve_call, Executor.execvpe_call, Executor.execvP_call,
          Executor.posix_spawn_call, Executor.posix_spawnp_call, hcp, hcf]

/-- C1 witness: a concrete enabled session and a target distinct from the
supervisor. -/
theorem c1_rewrite_invariant_witness :
    sample_session.enabled = true ∧
    "/bin/ls" ≠ sample_session.supervisor ∧
    "ls" ≠ sample_session.supervisor ∧
    ((Executor.execve_call sample_session "/bin/ls" ["ls", "-la"]
        ["HOME=/root"]).path = sample_session.supervisor ∧
    (Executor.execve_call sample_session "/bin/ls" ["ls", "-la"]
        ["HOME=/root"]).argv
      = [sample_session.supervisor, supervisor_marker,
         sample_session.destination, "/bin/ls"] ++ ["ls", "-la"] ∧
    (Executor.execvpe_call sample_session "ls" ["ls", "-la"]
        ["HOME=/root"]).path = sample_session.supervisor ∧
    (Executor.execvpe_call sample_session "ls" ["ls", "-la"]
        ["HOME=/root"]).argv
      = [sample_session.supervisor, supervisor_marker,
         sample_session.destination, "ls"] ++ ["ls", "-la"] ∧
    (Executor.execvP_call sample_session "ls" "/opt/bin" ["ls", "-la"]
        ["HOME=/root"]).path = sample_session.supervisor ∧
    (Executor.execvP_call sample_session "ls" "/opt/bin" ["ls", "-la"]
        ["HOME=/root"]).argv
      = [sample_session.supervisor, supervisor_marker,
         sample_session.destination, "ls", "/opt/bin"] ++ ["ls", "-la"] ∧
    (Executor.posix_spawn_call sample_session "/bin/ls" ["ls", "-la"]
        ["HOME=/root"]).path = sample_session.supervisor ∧
    (Executor.posix_spawn_call sample_session "/bin/ls" ["ls", "-la"]
        ["HOME=/root"]).argv
      = [sample_session.supervisor, supervisor_marker,
         sample_session.destination, "/bin/ls"] ++ ["ls", "-la"] ∧
    (Executor.posix_spawnp_call sample_session "ls" ["ls", "-la"]
        ["HOME=/root"]).path = sample_session.supervisor ∧
    (Executor.posix_spawnp_call sample_session "ls" ["ls", "-la"]
        ["HOME=/root"]).argv
      = [sample_session.supervisor, supervisor_marker,
         sample_session.destination, "ls"] ++ ["ls", "-la"]) :=
  ⟨rfl, by decide, by decide,
   c1_rewrite_invariant sample_session "/bin/ls" "ls" "/opt/bin"
     ["ls", "-la"] ["HOME=/root"] rfl (by decide) (by decide)⟩

/-- C2: with the Session disabled, every operation shape delegates the
caller's path, argv and envp unchanged, and an environment missing the
mandatory supervisor key yields a disabled Session rather than an error —
`Session.from_env` is total and never rejects. -/
theorem c2_passthrough_invariant (s : Session) (path file search : String)
    (argv envp environment : List String) (hs : s.enabled = false)
    (henv : env_lookup environment key_supervisor = none) :
    Executor.execve_call s path argv envp
      = { op := "execve", path := path, argv := argv, envp := envp } ∧
    Executor.execvpe_call s file argv envp
      = { op := "execvpe", path := file, argv := argv, envp := envp } ∧
    Executor.execvP_call s file search argv envp
      = { op := "execvP", path := file, argv := argv, envp := envp } ∧
    Executor.posix_spawn_call s path argv envp
      = { op := "posix_spawn", path := path, argv := argv, envp := envp } ∧
    Executor.posix_spawnp_call s file argv envp
      = { op := "posix_spawnp", path := file, argv := argv, envp := envp } ∧
    (Session.from_env environment).enabled = false := by
  refine ⟨?_, ?_, ?_, ?_, ?_, ?_⟩
  · simp [Executor.execve_call, hs]
  · simp [Executor.execvpe_call, hs]
  · simp [Executor.execvP_call, hs]
  · simp [Executor.posix_spawn_call, hs]
  · simp [Executor.posix_spawnp_call, hs]
  · rw [Session.from_env, henv]
    cases env_lookup environment key_destination <;>
      cases env_lookup environment key_library <;> rfl

/-- C2 witness: the default-constructed disabled session, with an
environment that carries a destination but no supervisor path. -/
theorem c2_passthrough_invariant_witness :
    default_session.enabled = false ∧
    env_lookup ["REPORT_DESTINATION=/tmp/events"] key_supervisor = none ∧
    (Executor.execve_call default_session "/bin/ls" ["ls", "-la"] ["HOME=/root"]
      = { op := "execve", path := "/bin/ls", argv := ["ls", "-la"],
          envp := ["HOME=/root"] } ∧
    Executor.execvpe_call default_session "ls" ["ls", "-la"] ["HOME=/root"]
      = { op := "execvpe", path := "ls", argv := ["ls", "-la"],
          envp := ["HOME=/root"] } ∧
    Executor.execvP_call default_session "ls" "/opt/bin" ["ls", "-la"]
        ["HOME=/root"]
      = { op := "execvP", path := "ls", argv := ["ls", "-la"],
          envp := ["HOME=/root"] } ∧
    Executor.posix_spawn_call default_session "/bin/ls" ["ls", "-la"]
        ["HOME=/root"]
      = { op := "posix_spawn", path := "/bin/ls", argv := ["ls", "-la"],
          envp := ["HOME=/root"] } ∧
    Executor.posix_spawnp_call default_session "ls" ["ls", "-la"]
        ["HOME=/root"]
      = { op := "posix_spawnp", path := "ls", argv := ["ls", "-la"],
          envp := ["HOME=/root"] } ∧
    (Session.from_env ["REPORT_DESTINATION=/tmp/events"]).enabled = false) :=
  ⟨rfl, by decide,
   c2_passthrough_invariant default_session "/bin/ls" "ls" "/opt/bin"
     ["ls", "-la"] ["HOME=/root"] ["REPORT_DESTINATION=/tmp/events"]
     rfl (by decide)⟩

/-- C6: every intercepted call emits exactly one record, named after the
invoked operation, and it precedes the delegate call in the action trace;
a fresh load writes the `on_load` record and the matching unload appends
the `on_unload` record. -/
theorem c6_one_record_before_delegate (s : Session)
    (ambient environment : List String) (path file search arg : String)
    (argv envp : List String) (ap : List VaVal)
    (impl : DelegateCall → Int) (spawn_impl : DelegateCall → Int × Nat) :
    (∃ c, (execve s path argv envp impl).1
      = [Event.record "execve", Event.delegate c]) ∧
    (∃ c, (execv s ambient path argv impl).1
      = [Event.record "execv", Event.delegate c]) ∧
    (∃ c, (execvpe s file argv envp impl).1
      = [Event.record "execvpe", Event.delegate c]) ∧
    (∃ c, (execvp s ambient file argv impl).1
      = [Event.record "execvp", Event.delegate c]) ∧
    (∃ c, (execvP s ambient file search argv impl).1
      = [Event.record "execvP", Event.delegate c]) ∧
    (∃ c, (exect s path argv envp impl).1
      = [Event.record "exect", Event.delegate c]) ∧
    (∃ c, (execl s ambient path arg ap impl).1
      = [Event.record "execl", Event.delegate c]) ∧
    (∃ c, (execlp s ambient file arg ap impl).1
      = [Event.record "execlp", Event.delegate c]) ∧
    (∃ c, (execle s path arg ap impl).1
      = [Event.record "execle", Event.delegate c]) ∧
    (∃ c, (posix_spawn s path argv envp spawn_impl).1
      = [Event.record "posix_spawn", Event.delegate c]) ∧
    (∃ c, (posix_spawnp s file argv envp spawn_impl).1
      = [Event.record "posix_spawnp", Event.delegate c]) ∧
    (on_load environment initial_state).events = ["on_load"] ∧
    (on_unload (on_load environment initial_state)).events
      = ["on_load", "on_unload"] :=
  ⟨⟨_, rfl⟩, ⟨_, rfl⟩, ⟨_, rfl⟩, ⟨_, rfl⟩, ⟨_, rfl⟩, ⟨_, rfl⟩, ⟨_, rfl⟩,
   ⟨_, rfl⟩, ⟨_, rfl⟩, ⟨_, rfl⟩, ⟨_, rfl⟩, rfl, rfl⟩

/-- C7: every wrapper returns exactly what the resolved original
implementation returns on the delegated call; the spawn wrappers forward
both the return value and the child identifier written through the output
parameter. -/
theorem c7_return_propagated (s : Session) (ambient : List String)
    (path file search arg : String) (argv envp : List String)
    (ap : List VaVal) (impl : DelegateCall → Int)
    (spawn_impl : DelegateCall → Int × Nat) :
    (execve s path argv envp impl).2
      = impl (Executor.execve_call s path argv envp) ∧
    (execv s ambient path argv impl).2
      = impl (Executor.execve_call s path argv ambient) ∧
    (execvpe s file argv envp impl).2
      = impl (Executor.execvpe_call s file argv envp) ∧
    (execvp s ambient file argv impl).2
      = impl (Executor.execvpe_call s file argv ambient) ∧
    (execvP s ambient file search argv impl).2
      = impl (Executor.execvP_call s file search argv ambient) ∧
    (exect s path argv envp impl).2
      = impl (Executor.execve_call s path argv envp) ∧
    (execl s ambient path arg ap impl).2
      = impl (Executor.execve_call s path
          (cvec_to_argv (variadic_argv path ap)) ambient) ∧
    (execlp s ambient file arg ap impl).2
      = impl (Executor.execvpe_call s file
          (cvec_to_argv (variadic_argv file ap)) ambient) ∧
    (execle s path arg ap impl).2
      = impl (Executor.execve_call s path
          (cvec_to_argv (variadic_argv path ap)) (execle_envp ap)) ∧
    (posix_spawn s path argv envp spawn_impl).2
      = spawn_impl (Executor.posix_spawn_call s path argv envp) ∧
    (posix_spawn s path argv envp spawn_impl).2.2
      = (spawn_impl (Executor.posix_spawn_call s path argv envp)).2 ∧
    (posix_spawnp s file argv envp spawn_impl).2
      = spawn_impl (Executor.posix_spawnp_call s file argv envp) ∧
    (posix_spawnp s file argv envp spawn_impl).2.2
      = (spawn_impl (Executor.posix_spawnp_call s file argv envp)).2 :=
  ⟨rfl, rfl, rfl, rfl, rfl, rfl, rfl, rfl, rfl, rfl, rfl, rfl, rfl⟩

/-- C10 counterexample: `exect`, which the claim leaves off the list of
variants forwarding a caller-supplied environment, hands the Executor the
caller's `envp` — here `["CALLER=1"]` — and never reads the live process
environment (it has no access to it at all). -/
theorem c10_exect_forwards_caller_env :
    (exect default_session "/bin/tool" ["tool"] ["CALLER=1"]
        (fun _ => 0)).1
      = [Event.record "exect",
         Event.delegate { op := "execve", path := "/bin/tool",
                          argv := ["tool"], envp := ["CALLER=1"] }] := rfl

/-- C10 amended: `execv`, `execvp`, `execvP`, `execl` and `execlp` hand the
Executor the live process environment read at call time, while `execve`,
`execvpe`, `execle`, `exect`, `posix_spawn` and `posix_spawnp` forward a
caller-supplied environment (for `execle`, the one read positionally from
the variadic list). -/
theorem c10_ambient_vs_caller_env (s : Session) (ambient : List String)
    (path file search arg : String) (argv envp : List String)
    (ap : List VaVal) (impl : DelegateCall → Int)
    (spawn_impl : DelegateCall → Int × Nat) :
    (execv s ambient path argv impl).1
      = [Event.record "execv",
         Event.delegate (Executor.execve_call s path argv ambient)] ∧
    (execvp s ambient file argv impl).1
      = [Event.record "execvp",
         Event.delegate (Executor.execvpe_call s file argv ambient)] ∧
    (execvP s ambient file search argv impl).1
      = [Event.record "execvP",
         Event.delegate (Executor.execvP_call s file search argv ambient)] ∧
    (execl s ambient path arg ap impl).1
      = [Event.record "execl",
         Event.delegate (Executor.execve_call s path
           (cvec_to_argv (variadic_argv path ap)) ambient)] ∧
    (execlp s ambient file arg ap impl).1
      = [Event.record "execlp",
         Event.delegate (Executor.execvpe_call s file
           (cvec_to_argv (variadic_argv file ap)) ambient)] ∧
    (execve s path argv envp impl).1
      = [Event.record "execve",
         Event.delegate (Executor.execve_call s path argv envp)] ∧
    (execvpe s file argv envp impl).1
      = [Event.record "execvpe",
         Event.delegate (Executor.execvpe_call s file argv envp)] ∧
    (exect s path argv envp impl).1
      = [Event.record "exect",
         Event.delegate (Executor.execve_call s path argv envp)] ∧
    (execle s path arg ap impl).1
      = [Event.record "execle",
         Event.delegate (Executor.execve_call s path
           (cvec_to_argv (variadic_argv path ap)) (execle_envp ap))] ∧
    (posix_spawn s path argv envp spawn_impl).1
      = [Event.record "posix_spawn",
         Event.delegate (Executor.posix_spawn_call s path argv envp)] ∧
    (posix_spawnp s file argv envp spawn_impl).1
      = [Event.record "posix_spawnp",
         Event.delegate (Executor.posix_spawnp_call s file argv envp)] :=
  ⟨rfl, rfl, rfl, rfl, rfl, rfl, rfl, rfl, rfl, rfl, rfl⟩

/-! ### Helper lemmas on the load and unload hooks -/

theorem on_load_fixed (environment : List String) (st : LibState)
    (h : st.loaded = true) : on_load environment st = st := by
  simp [on_load, h]

theorem on_load_iterate_fixed (environment : List String) (st : LibState)
    (h : st.loaded = true) (k : Nat) :
    (on_load environment)^[k] st = st := by
  induction k with
  | zero => rfl
  | succ k ih => rw [Function.iterate_succ_apply, on_load_fixed environment st h, ih]

theorem on_unload_fixed (st : LibState) (h : st.loaded = false) :
    on_unload st = st := by
  simp [on_unload, h]

theorem on_unload_iterate_fixed (st : LibState) (h : st.loaded = false)
    (k : Nat) : on_unload^[k] st = st := by
  induction k with
  | zero => rfl
  | succ k ih => rw [Function.iterate_succ_apply, on_unload_fixed st h, ih]

/-- C5 counterexample: the guard is a toggling flag, not a once-latch. In
the hook sequence load, unload, load — possible when the library is mapped,
torn down and mapped again inside one process — the Session is constructed
twice, so it is not constructed at most once per process lifetime. -/
theorem c5_reload_reconstructs :
    (run_hooks [] [Hook.load, Hook.unload, Hook.load]
        initial_state).session_constructions = 2 ∧
    ¬ (run_hooks [] [Hook.load, Hook.unload, Hook.load]
        initial_state).session_constructions ≤ 1 := by
  refine ⟨rfl, by decide⟩

/-- C5 amended: repeated invocations of the load hook with no intervening
unload parse the environment and construct the Session exactly once, and
repeated invocations of the unload hook thereafter write the unload record
exactly once — the atomic guard makes each hook idempotent within its
phase. (A load that follows an unload constructs the Session again, so
construction is at most once per load/unload cycle, not per process
lifetime.) -/
theorem c5_load_unload_idempotent (environment : List String) (n m : Nat)
    (hn : 1 ≤ n) (hm : 1 ≤ m) :
    ((on_load environment)^[n] initial_state).session_constructions = 1 ∧
    ((on_load environment)^[n] initial_state).events.count "on_load" = 1 ∧
    (on_unload^[m] ((on_load environment)^[n] initial_state)).events.count
        "on_unload" = 1 := by
  have hload : (on_load environment)^[n] initial_state
      = { loaded := true, session := Session.from_env environment,
          events := ["on_load"], session_constructions := 1 } := by
    obtain ⟨k, rfl⟩ : ∃ k, n = k + 1 := ⟨n - 1, by omega⟩
    rw [Function.iterate_succ_apply]
    have h1 : on_load environment initial_state
        = { loaded := true, session := Session.from_env environment,
            events := ["on_load"], session_constructions := 1 } := by
      simp [on_load, initial_state]
    rw [h1]
    exact on_load_iterate_fixed environment _ rfl k
  have hunload : on_unload^[m] ((on_load environment)^[n] initial_state)
      = { loaded := false, session := Session.from_env environment,
          events := ["on_load", "on_unload"], session_constructions := 1 } := by
    obtain ⟨k, rfl⟩ : ∃ k, m = k + 1 := ⟨m - 1, by omega⟩
    rw [hload, Function.iterate_succ_apply]
    have h2 : on_unload
        { loaded := true, session := Session.from_env environment,
          events := ["on_load"], session_constructions := 1 }
        = { loaded := false, session := Session.from_env environment,
            events := ["on_load", "on_unload"], session_constructions := 1 } := by
      simp [on_unload]
    rw [h2]
    exact on_unload_iterate_fixed _ rfl k
  rw [hunload, hload]
  refine ⟨rfl, by simp, by simp⟩

/-- C5 witness: two consecutive loads then two consecutive unloads, from a
fresh process. -/
theorem c5_load_unload_idempotent_witness :
    1 ≤ 2 ∧
    (((on_load ["REPORT_DESTINATION=/tmp/events"])^[2]
        initial_state).session_constructions = 1 ∧
    ((on_load ["REPORT_DESTINATION=/tmp/events"])^[2]
        initial_state).events.count "on_load" = 1 ∧
    (on_unload^[2] ((on_load ["REPORT_DESTINATION=/tmp/events"])^[2]
        initial_state)).events.count "on_unload" = 1) :=
  ⟨by decide,
   c5_load_unload_idempotent ["REPORT_DESTINATION=/tmp/events"] 2 2
     (by decide) (by decide)⟩

end Bear
